import Mathlib

/-!
Verification of the sc-2450 fault-injection HTTP server (`server.py`).

The server replays a captured HTTP/1.1 response.  `do_GET` serializes a fixed
status line and header list, appends the first 15 bytes of a precomputed
chunked gzip payload to the header buffer, writes that buffer, and then writes
the remaining payload bytes — forcing a specific split of the response across
two socket writes.  `do_HEAD` replays a second fixed header list through the
framework's `send_response`, which prepends its own `Server` and `Date`
headers.  We embed the handler as pure functions over byte lists (`List Nat`,
each element < 256) and settle the specification's claims about it.
-/

set_option maxRecDepth 8000

namespace SC2450

/-- Bytes of an ASCII string (every string in the catalog is ASCII). -/
def strBytes (s : String) : List Nat := s.data.map Char.toNat

/-- The two-byte CR LF line terminator. -/
def crlf : List Nat := [13, 10]

/-- The `headers` table of `server.py` (lines 10–29): the ordered header list
replayed for GET responses, taken from the packet capture. -/
def headers : List (String × String) :=
  [ ("Content-Encoding", "gzip"),
    ("Set-Cookie",
      "glide_user=\"\"; Expires=Thu, 01-Jan-1970 00:00:10 GMT; Path=/; HttpOnly"),
    ("Set-Cookie",
      "glide_user_session=\"\"; Expires=Thu, 01-Jan-1970 00:00:10 GMT; Path=/; HttpOnly"),
    ("X-Is-Logged-In", "false"),
    ("X-Transaction-ID", "7cba67127310"),
    ("Pragma", "no-store,no-cache"),
    ("Cache-control", "no-cache,no-store,must-revalidate,max-age=-1"),
    ("Expires", "0"),
    ("Content-Type", "application/json;charset=UTF-8"),
    ("Transfer-Encoding", "chunked"),
    ("Date", "Thu, 23 Apr 2020 10:17:02 GMT"),
    ("Server", "ServiceNow") ]

/-- The `stats_headers` table of `server.py` (lines 31–40): the ordered header
list replayed for HEAD responses. -/
def stats_headers : List (String × String) :=
  [ ("Set-Cookie", "JSESSIONID=014F24618731E4C4CED40B8288E4CE62; Path=/; HttpOnly"),
    ("Pragma", "no-store,no-cache"),
    ("Cache-control", "no-cache,no-store,must-revalidate,max-age=-1"),
    ("Expires", "0"),
    ("Content-Type", "text/html"),
    ("Transfer-Encoding", "chunked"),
    ("Date", "Thu, 23 Apr 2020 10:16:28 GMT"),
    ("Server", "ServiceNow") ]

/-- `RequestHandler.data` (lines 50–57): the precomputed payload, a chunked
encoding of the gzip compression of the version JSON.  In the source it is a
mutable class-level `bytearray` shared by all requests; here its initial value. -/
def data : List Nat :=
  [ 0x61, 0x0d, 0x0a, 0x1f, 0x8b, 0x08, 0x00, 0x00, 0x00, 0x00, 0x00, 0x00, 0x00, 0x0d,
    0x0a, 0x33, 0x34, 0x0d, 0x0a, 0xab, 0x56, 0x4a, 0xcc, 0x4b, 0x29, 0xca, 0xcf, 0x4c,
    0x51, 0xb2, 0xaa, 0x56, 0xca, 0xcd, 0xcc, 0x8b, 0x2f, 0x4b, 0x2d, 0x2a, 0xce, 0xcc,
    0xcf, 0x53, 0xb2, 0x52, 0x32, 0xd1, 0x33, 0xd0, 0x33, 0x50, 0xaa, 0xd5, 0x51, 0xca,
    0xcc, 0x2f, 0xc6, 0x29, 0x5b, 0x0b, 0x00, 0x37, 0x57, 0xea, 0x1d, 0x41, 0x00, 0x00,
    0x00, 0x0d, 0x0a, 0x30, 0x0d, 0x0a, 0x0d, 0x0a ]

/-- An incoming HTTP request as the handler sees it (`self.requestline`,
`self.command`, `self.path`, `self.headers`).  `do_GET` only prints these
fields; the response never depends on them. -/
structure Request where
  requestline : String
  command : String
  path : String
  reqHeaders : List (String × String)

/-- A concrete request used to instantiate universally quantified statements. -/
def sampleRequest : Request :=
  { requestline := "GET / HTTP/1.1", command := "GET", path := "/", reqHeaders := [] }

/-- `BaseHTTPRequestHandler.send_response_only(code)` for HTTP/1.1: append the
status line to the handler's header buffer (`_headers_buffer`). -/
def send_response_only (buf : List (List Nat)) (code : Nat) (message : String) :
    List (List Nat) :=
  buf ++ [strBytes ("HTTP/1.1 " ++ toString code ++ " " ++ message) ++ crlf]

/-- `BaseHTTPRequestHandler.send_header(k, v)` for HTTP/1.1: append one
serialized header line to the header buffer. -/
def send_header (buf : List (List Nat)) (k v : String) : List (List Nat) :=
  buf ++ [strBytes (k ++ ": " ++ v) ++ crlf]

/-- `RequestHandler.do_HEAD` (lines 62–68).  It calls `send_response(200)`,
which (per `BaseHTTPRequestHandler.send_response`) emits the status line and
then `Server: <version_string()>` and `Date: <date_time_string()>` headers
before the handler's own loop over `stats_headers`; `version_string` is
overridden to return `"ServiceNow"` and the current date is the external input
`now`.  `end_headers` appends the blank line and flushes the buffer as one
write.  The result is the list of writes issued on the connection. -/
def do_HEAD (now : String) : List (List Nat) :=
  let buf := send_response_only [] 200 "OK"
  let buf := send_header buf "Server" "ServiceNow"
  let buf := send_header buf "Date" now
  let buf := stats_headers.foldl (fun b h => send_header b h.1 h.2) buf
  [(buf ++ [crlf]).flatten]

/-- `RequestHandler.do_GET` (lines 70–110).  `bad_start` is the fault flag of
line 79 (`False` in the source as committed; lines 83–84 zero byte 0 of the
shared payload when it is set).  `st` is the current contents of the class
attribute `data`.  The handler buffers the status line (`send_response_only`),
the `headers` table, the blank line, and `data[0:15]`, writes the joined
buffer, then writes `data[15:]`.  Returns the list of writes issued and the
contents of the shared `data` attribute after the request. -/
def do_GET (_req : Request) (bad_start : Bool) (st : List Nat) :
    List (List Nat) × List Nat :=
  let d := if bad_start then st.set 0 0 else st
  let buf := send_response_only [] 200 "OK"
  let buf := headers.foldl (fun b h => send_header b h.1 h.2) buf
  let buf := buf ++ [crlf]
  let buf := buf ++ [d.take 15]
  ([buf.flatten, d.drop 15], d)

/-- The serialized HTTP/1.1 200 status line. -/
def statusLine : List Nat := strBytes "HTTP/1.1 200 OK" ++ crlf

/-- Serialization of an ordered header list: one `Name: value CRLF` line per
entry, in order. -/
def headerBlock (hs : List (String × String)) : List Nat :=
  (hs.map (fun h => strBytes (h.1 ++ ": " ++ h.2) ++ crlf)).flatten

/-- The header part of the GET response: status line, the `headers` table in
catalog order, blank line. -/
def getHeaderPart : List Nat := statusLine ++ headerBlock headers ++ crlf

/-- The fully serialized GET response for payload contents `d`: status line,
headers in catalog order, blank line, body. -/
def serializedGET (d : List Nat) : List Nat := getHeaderPart ++ d

/-- The split point of the GET response: the first write carries the header
part plus `data[0:15]`, so the response is divided at this byte offset. -/
def splitPoint : Nat := getHeaderPart.length + 15

/-- The split offset measured inside the chunked body: the slice bound `15` of
`data[0:15]` / `data[15:]` in `do_GET`. -/
def bodySplitOffset : Nat := 15

/-- The constant byte sequence a GET response puts on the wire (fault flag
unset, payload in its initial state). -/
def getResponseBytes : List Nat := serializedGET data

/-- Failure modes a write on the connection could surface.  The handler's
source contains no error path at all; this type exists to state that. -/
inductive WriteError where
  | shortWrite
deriving DecidableEq

/-- The GET handler together with the outcome it reports for the write calls.
In the source, both `self.wfile.write(...)` calls discard the return value and
are wrapped in no exception handling, so the writes issued and the (absent)
error are independent of how many bytes the transport reports transmitted
(`results`). -/
def do_GET_observed (req : Request) (bad_start : Bool) (st : List Nat)
    (_results : List Nat) : List (List Nat) × Option WriteError :=
  ((do_GET req bad_start st).1, none)

/-! ### Reference decoders

Chunked transfer decoding (RFC 7230 §4.1), gzip framing (RFC 1952) and
DEFLATE fixed-Huffman decompression (RFC 1951) are needed to state what the
payload bytes mean.  They are standard-algorithm definitions, the vocabulary
of the claims, not part of the server. -/

/-- Is the byte an ASCII hexadecimal digit? -/
def isHexDigit (b : Nat) : Bool :=
  (48 ≤ b && b ≤ 57) || (97 ≤ b && b ≤ 102) || (65 ≤ b && b ≤ 70)

/-- Value of an ASCII hexadecimal digit. -/
def hexVal (b : Nat) : Nat :=
  if b ≤ 57 then b - 48 else if b ≤ 70 then b - 55 else b - 87

/-- Parse a chunk-size line: hexadecimal digits followed by CR LF.  Returns
the size and the remaining bytes. -/
def parseChunkSizeLine : List Nat → Nat → Option (Nat × List Nat)
  | [], _ => none
  | b :: rest, acc =>
    if isHexDigit b then parseChunkSizeLine rest (acc * 16 + hexVal b)
    else if b = 13 then
      match rest with
      | 10 :: rest2 => some (acc, rest2)
      | _ => none
    else none

/-- Decode a chunked-encoded byte stream into the concatenated chunk data.
Requires the terminating zero-size chunk followed by CR LF and no trailing
bytes.  `fuel` bounds the number of chunks. -/
def decodeChunks : Nat → List Nat → Option (List Nat)
  | 0, _ => none
  | fuel + 1, bs =>
    match parseChunkSizeLine bs 0 with
    | none => none
    | some (size, rest) =>
      if size = 0 then
        match rest with
        | [13, 10] => some []
        | _ => none
      else if rest.length < size then none
      else
        match rest.drop size with
        | 13 :: 10 :: rest2 => (decodeChunks fuel rest2).map (rest.take size ++ ·)
        | _ => none

/-- Decode a chunked-encoded byte stream (fuel instantiated). -/
def decodeChunked (bs : List Nat) : Option (List Nat) :=
  decodeChunks (bs.length + 1) bs

/-- The end offset (exclusive) of the first chunk of a chunked stream: its
size line, its data, and its trailing CR LF. -/
def firstChunkEnd (bs : List Nat) : Option Nat :=
  (parseChunkSizeLine bs 0).map (fun p => (bs.length - p.2.length) + p.1 + 2)

/-- The bits of one byte, least-significant first (DEFLATE bit order). -/
def byteBits (b : Nat) : List Bool := (List.range 8).map (fun i => b.testBit i)

/-- The bit stream of a byte sequence. -/
def toBits (bs : List Nat) : List Bool := (bs.map byteBits).flatten

/-- Value of a bit list read least-significant first. -/
def bitsVal : List Bool → Nat
  | [] => 0
  | b :: t => (if b then 1 else 0) + 2 * bitsVal t

/-- Read `n` bits as an integer, least-significant bit first (used for block
headers and extra bits). -/
def readBits (n : Nat) (bs : List Bool) : Option (Nat × List Bool) :=
  if bs.length < n then none else some (bitsVal (bs.take n), bs.drop n)

/-- Read `n` bits of a Huffman code, accumulating most-significant first
starting from `acc`. -/
def readCode : Nat → Nat → List Bool → Option (Nat × List Bool)
  | 0, acc, bs => some (acc, bs)
  | _ + 1, _, [] => none
  | n + 1, acc, b :: t => readCode n (2 * acc + (if b then 1 else 0)) t

/-- Decode one literal/length symbol of the fixed Huffman code of RFC 1951
§3.2.6: 7-bit codes 0–23 are symbols 256–279, 8-bit codes 48–191 are literals
0–143, 8-bit codes 192–199 are symbols 280–287, 9-bit codes 400–511 are
literals 144–255. -/
def decodeLitLen (bs : List Bool) : Option (Nat × List Bool) := do
  let (c7, bs) ← readCode 7 0 bs
  if c7 ≤ 23 then
    return (256 + c7, bs)
  else
    let (c8, bs) ← readCode 1 c7 bs
    if 48 ≤ c8 ∧ c8 ≤ 191 then
      return (c8 - 48, bs)
    else if 192 ≤ c8 ∧ c8 ≤ 199 then
      return (280 + (c8 - 192), bs)
    else
      let (c9, bs) ← readCode 1 c8 bs
      if 400 ≤ c9 ∧ c9 ≤ 511 then
        return (144 + (c9 - 400), bs)
      else
        none

/-- Extra bits for length symbol `257 + k` (RFC 1951 §3.2.5): the first eight
rows have none, then each group of four rows gains one more extra bit, and the
last row (match length 258) again has none. -/
def lengthExtraIdx (k : Nat) : Nat := if k = 28 then 0 else k / 4 - 1

/-- Base match length for length symbol `257 + k`, derived by the table's
accumulation rule: each base is the previous base plus `2 ^ extra`. -/
def lengthBaseIdx : Nat → Nat
  | 0 => 3
  | k + 1 => lengthBaseIdx k + 2 ^ lengthExtraIdx k

/-- Extra bits for a length symbol (257–285). -/
def lengthExtra (sym : Nat) : Nat := lengthExtraIdx (sym - 257)

/-- Base match length for a length symbol (257–285); symbol 285 is the fixed
maximum length 258, off the accumulation pattern. -/
def lengthBase (sym : Nat) : Nat :=
  if sym - 257 = 28 then 258 else lengthBaseIdx (sym - 257)

/-- Extra bits for distance symbol 0–29 (RFC 1951 §3.2.5): none for the first
four symbols, then one more for every further pair of symbols. -/
def distExtra (sym : Nat) : Nat := sym / 2 - 1

/-- Base distance for distance symbol 0–29, derived by the table's
accumulation rule: each base is the previous base plus `2 ^ extra`. -/
def distBase : Nat → Nat
  | 0 => 1
  | k + 1 => distBase k + 2 ^ distExtra k

/-- Append `n` bytes copied from `dist` bytes back in the output (LZ77 match
copy; overlapping copies repeat the appended bytes, as required). -/
def copyRef (out : List Nat) (dist : Nat) : Nat → List Nat
  | 0 => out
  | n + 1 => copyRef (out ++ [out.getD (out.length - dist) 0]) dist n

/-- Decode the symbols of one fixed-Huffman DEFLATE block, extending `out`,
until the end-of-block symbol 256.  Returns the output and remaining bits. -/
def inflateFixedLoop : Nat → List Bool → List Nat → Option (List Nat × List Bool)
  | 0, _, _ => none
  | fuel + 1, bs, out => do
    let (sym, bs) ← decodeLitLen bs
    if sym = 256 then
      return (out, bs)
    else if sym < 256 then
      inflateFixedLoop fuel bs (out ++ [sym])
    else if 286 ≤ sym then none
    else
      let (extra, bs) ← readBits (lengthExtra sym) bs
      let (dcode, bs) ← readCode 5 0 bs
      if dcode ≥ 30 then none
      else
        let (dextra, bs) ← readBits (distExtra dcode) bs
        let dist := distBase dcode + dextra
        if dist = 0 ∨ out.length < dist then none
        else inflateFixedLoop fuel bs (copyRef out dist (lengthBase sym + extra))

/-- Decode a sequence of DEFLATE blocks.  Only fixed-Huffman blocks (BTYPE
`01`) are supported — sufficient for, and honest about, this payload: a
stored or dynamic-Huffman block yields `none`, never a wrong success. -/
def inflateBlocks : Nat → List Bool → List Nat → Option (List Nat)
  | 0, _, _ => none
  | fuel + 1, bs, out => do
    let (bfinal, bs) ← readBits 1 bs
    let (btype, bs) ← readBits 2 bs
    if btype = 1 then
      let (out2, bs2) ← inflateFixedLoop (bs.length + 1) bs out
      if bfinal = 1 then return out2 else inflateBlocks fuel bs2 out2
    else
      none

/-- DEFLATE decompression of a byte stream (fixed-Huffman blocks). -/
def inflate (bs : List Nat) : Option (List Nat) :=
  inflateBlocks (bs.length + 1) (toBits bs) []

/-- One shift step of the bitwise CRC-32 (reflected polynomial 0xEDB88320). -/
def crc32Step (c : Nat) : Nat :=
  if c % 2 = 1 then (c / 2) ^^^ 0xEDB88320 else c / 2

/-- Fold one byte into a CRC-32 accumulator. -/
def crc32Byte (c b : Nat) : Nat :=
  (List.range 8).foldl (fun acc _ => crc32Step acc) (c ^^^ b)

/-- Fold a byte sequence into a CRC-32 accumulator. -/
def crcFold (c : Nat) (bs : List Nat) : Nat := bs.foldl crc32Byte c

/-- CRC-32 of a byte sequence (RFC 1952 §8). -/
def crc32 (bs : List Nat) : Nat := crcFold 0xFFFFFFFF bs ^^^ 0xFFFFFFFF

/-- A 32-bit value as four little-endian bytes. -/
def toLE32 (n : Nat) : List Nat :=
  [n % 256, n / 2 ^ 8 % 256, n / 2 ^ 16 % 256, n / 2 ^ 24 % 256]

/-- The part of a gzip stream after the 10-byte header: the DEFLATE stream
followed by the CRC-32 and the length modulo 2³² of the decompressed data,
both little-endian.  Returns the decompressed bytes only if both trailer
checks pass. -/
def gunzipBody (rest : List Nat) : Option (List Nat) :=
  if rest.length < 8 then none
  else
    (inflate (rest.take (rest.length - 8))).bind (fun out =>
      if rest.drop (rest.length - 8) = toLE32 (crc32 out) ++ toLE32 (out.length % 2 ^ 32)
      then some out else none)

/-- Gzip decompression (RFC 1952): magic bytes `1f 8b`, compression method 8
(DEFLATE), no flags, then the DEFLATE stream and the checked trailer. -/
def gunzip (bs : List Nat) : Option (List Nat) :=
  match bs with
  | 0x1f :: 0x8b :: 0x08 :: 0x00 :: _m0 :: _m1 :: _m2 :: _m3 :: _xfl :: _os :: rest =>
    gunzipBody rest
  | _ => none

/-- The gzip stream carried by the payload's chunks: 10 header bytes from the
first chunk, DEFLATE data and trailer from the second. -/
def gzipStream : List Nat :=
  [ 0x1f, 0x8b, 0x08, 0x00, 0x00, 0x00, 0x00, 0x00, 0x00, 0x00,
    0xab, 0x56, 0x4a, 0xcc, 0x4b, 0x29, 0xca, 0xcf, 0x4c, 0x51, 0xb2, 0xaa, 0x56, 0xca,
    0xcd, 0xcc, 0x8b, 0x2f, 0x4b, 0x2d, 0x2a, 0xce, 0xcc, 0xcf, 0x53, 0xb2, 0x52, 0x32,
    0xd1, 0x33, 0xd0, 0x33, 0x50, 0xaa, 0xd5, 0x51, 0xca, 0xcc, 0x2f, 0xc6, 0x29, 0x5b,
    0x0b, 0x00, 0x37, 0x57, 0xea, 0x1d, 0x41, 0x00, 0x00, 0x00 ]

/-- `gzipStream` without its 10-byte header. -/
def gzRest : List Nat := gzipStream.drop 10

/-- The DEFLATE stream inside `gzipStream` (everything between the header and
the 8-byte trailer). -/
def deflBytes : List Nat := gzRest.take 44

/-- The documented contents of the payload: the version JSON (78-byte chunked
stream → 62-byte gzip stream → this 65-byte string). -/
def targetJSON : List Nat :=
  strBytes "\x7b\"android\":\x7b\"min_version\":\"4.0.0\"\x7d,\"ios\":\x7b\"min_version\":\"4.0.0\"\x7d\x7d"

end SC2450

namespace SC2450

/-! ### Helper lemmas -/

/-- Folding CRC-32 over a concatenation is folding over the pieces in turn. -/
theorem crcFold_append (c : Nat) (l1 l2 : List Nat) :
    crcFold c (l1 ++ l2) = crcFold (crcFold c l1) l2 := by
  simp [crcFold]

/-- CRC-32 accumulator after the first 22 bytes of the JSON. -/
theorem crcFold_json1 : crcFold 0xFFFFFFFF (targetJSON.take 22) = 0x52058f7e := by decide

/-- CRC-32 accumulator after the next 22 bytes of the JSON. -/
theorem crcFold_json2 : crcFold 0x52058f7e ((targetJSON.drop 22).take 22) = 0xee4ac9f1 := by
  decide

/-- CRC-32 accumulator after the last 21 bytes of the JSON. -/
theorem crcFold_json3 : crcFold 0xee4ac9f1 (targetJSON.drop 44) = 0xe215a8c8 := by decide

/-- CRC-32 of the JSON payload, as recorded in the gzip trailer. -/
theorem crc32_targetJSON : crc32 targetJSON = 0x1dea5737 := by
  have hdec : targetJSON
      = targetJSON.take 22 ++ ((targetJSON.drop 22).take 22 ++ targetJSON.drop 44) := by
    decide
  unfold crc32
  rw [hdec, crcFold_append, crcFold_append, crcFold_json1, crcFold_json2, crcFold_json3]
  decide

/-- The DEFLATE stream inside the payload decompresses to the JSON. -/
theorem inflate_deflBytes : inflate deflBytes = some targetJSON := by decide

/-- The gzip body after the header decompresses to the JSON and passes the
trailer checks. -/
theorem gunzipBody_gzRest : gunzipBody gzRest = some targetJSON := by
  have htake : gzRest.take (gzRest.length - 8) = deflBytes := by decide
  have hdrop : gzRest.drop (gzRest.length - 8)
      = [0x37, 0x57, 0xea, 0x1d, 0x41, 0x00, 0x00, 0x00] := by decide
  unfold gunzipBody
  rw [if_neg (by decide : ¬ gzRest.length < 8), htake, hdrop, inflate_deflBytes]
  simp only [Option.some_bind]
  rw [crc32_targetJSON]
  decide

/-- The gzip stream extracted from the payload decompresses to the JSON. -/
theorem gunzip_gzipStream : gunzip gzipStream = some targetJSON := by
  have h : gunzip gzipStream = gunzipBody gzRest := rfl
  rw [h, gunzipBody_gzRest]

/-- Decoding the chunk framing of the payload yields the gzip stream. -/
theorem decodeChunked_data : decodeChunked data = some gzipStream := by decide

/-- Appending headers with `send_header` appends their serialized lines. -/
theorem foldl_send_header (hs : List (String × String)) (buf : List (List Nat)) :
    hs.foldl (fun b h => send_header b h.1 h.2) buf
      = buf ++ hs.map (fun h => strBytes (h.1 ++ ": " ++ h.2) ++ crlf) := by
  induction hs generalizing buf with
  | nil => simp
  | cons h t ih =>
    rw [List.foldl_cons, ih]
    simp [send_header, List.append_assoc]

/-! ### Claims -/

/-- Claim C1: for every GET request the handler emits the response in exactly
two writes on the connection; the first is bytes `[0, splitPoint)` of the
fully serialized response (status line, headers in catalog order, blank line,
body prefix), the second is bytes `[splitPoint, end)`; their concatenation is
the full serialized response and the first write's length is the split
point. -/
theorem get_two_writes_split (r : Request) :
    (do_GET r false data).1.length = 2
    ∧ (do_GET r false data).1.flatten = serializedGET data
    ∧ (do_GET r false data).1.headD [] = (serializedGET data).take splitPoint
    ∧ (do_GET r false data).1.getD 1 [] = (serializedGET data).drop splitPoint
    ∧ ((do_GET r false data).1.headD []).length = splitPoint :=
  ⟨rfl, rfl, rfl, rfl, rfl⟩

/-- Claim C2: for every GET response generated with the fault flag unset,
decoding the chunk framing of the body and gzip-decompressing the result
yields exactly the version JSON. -/
theorem get_body_decodes_to_json (r : Request) :
    (decodeChunked (((do_GET r false data).1.flatten).drop getHeaderPart.length)).bind gunzip
      = some targetJSON := by
  have hflat : (do_GET r false data).1.flatten = getHeaderPart ++ data := rfl
  rw [hflat, List.drop_left, decodeChunked_data, Option.some_bind]
  exact gunzip_gzipStream

/-- Claim C3, counterexample: the split offset into the chunked body does not
fall strictly inside the body's first chunk — the first chunk (size line,
10 data bytes, CR LF) ends exactly at offset 15, which is the split offset,
so the first write carries a complete first chunk, not a partial one. -/
theorem split_not_strictly_inside_first_chunk :
    ¬ ∃ e, firstChunkEnd data = some e ∧ 0 < bodySplitOffset ∧ bodySplitOffset < e := by
  rintro ⟨e, he, -, hlt⟩
  have h15 : firstChunkEnd data = some 15 := by decide
  rw [h15] at he
  injection he with h
  subst h
  exact absurd hlt (by decide)

/-- Claim C3, amended: the split point satisfies `0 < splitPoint < total
length`, and for the data profile the split offset into the body falls
exactly at the end of the chunked body's first chunk, so the first write
carries precisely the complete first chunk of the body. -/
theorem split_in_bounds_at_first_chunk_boundary :
    0 < splitPoint ∧ splitPoint < getResponseBytes.length
    ∧ firstChunkEnd data = some bodySplitOffset
    ∧ ∀ r : Request,
        (do_GET r false data).1.headD [] = getHeaderPart ++ data.take bodySplitOffset :=
  ⟨by decide, by decide, by decide, fun _ => rfl⟩

/-- Claim C4: every GET response has status 200 and its header block is
exactly these headers in exactly this order — `Content-Encoding: gzip`, two
expiry-clearing `Set-Cookie` headers, `X-Is-Logged-In: false`,
`X-Transaction-ID`, `Pragma`, `Cache-control`, `Expires`,
`Content-Type: application/json;charset=UTF-8`, `Transfer-Encoding: chunked`,
`Date`, `Server` — with no other headers interleaved or appended. -/
theorem get_status_and_exact_headers (r : Request) :
    (do_GET r false data).1.flatten
      = strBytes "HTTP/1.1 200 OK" ++ crlf
        ++ headerBlock
          [ ("Content-Encoding", "gzip"),
            ("Set-Cookie",
              "glide_user=\"\"; Expires=Thu, 01-Jan-1970 00:00:10 GMT; Path=/; HttpOnly"),
            ("Set-Cookie",
              "glide_user_session=\"\"; Expires=Thu, 01-Jan-1970 00:00:10 GMT; Path=/; HttpOnly"),
            ("X-Is-Logged-In", "false"),
            ("X-Transaction-ID", "7cba67127310"),
            ("Pragma", "no-store,no-cache"),
            ("Cache-control", "no-cache,no-store,must-revalidate,max-age=-1"),
            ("Expires", "0"),
            ("Content-Type", "application/json;charset=UTF-8"),
            ("Transfer-Encoding", "chunked"),
            ("Date", "Thu, 23 Apr 2020 10:17:02 GMT"),
            ("Server", "ServiceNow") ]
        ++ crlf ++ data :=
  rfl

/-- Claim C5, counterexample: the HEAD response is not the status-profile
header set alone — `send_response(200)` prepends the framework's
`Server: ServiceNow` and `Date` headers, so even when the current date equals
the captured one the response differs from a head block of exactly
`stats_headers`. -/
theorem head_not_exactly_stats_headers :
    do_HEAD "Thu, 23 Apr 2020 10:16:28 GMT"
      ≠ [statusLine ++ headerBlock stats_headers ++ crlf] := by
  decide

/-- Claim C5, amended: every HEAD request is answered with status 200, an
empty body, and a single write whose header block is `Server: ServiceNow` and
`Date: <current time>` (added by the framework's `send_response`) followed by
exactly the status-profile headers in order. -/
theorem head_single_response_with_framework_headers (now : String) :
    do_HEAD now
      = [statusLine
          ++ headerBlock (("Server", "ServiceNow") :: ("Date", now) :: stats_headers)
          ++ crlf] := by
  simp [do_HEAD, send_response_only, send_header, foldl_send_header, headerBlock,
    statusLine, stats_headers, List.append_assoc]
  decide

/-- Claim C6, counterexample: handling a GET with the fault flag set mutates
the stored shared payload itself — afterwards the class attribute no longer
holds the original catalog bytes (its first byte, the chunk-size digit `a`,
has been zeroed). -/
theorem fault_mutates_stored_payload :
    (do_GET sampleRequest true data).2 ≠ data
    ∧ (do_GET sampleRequest true data).2.headD 0 = 0
    ∧ data.headD 0 = 0x61 := by
  refine ⟨by decide, by decide, by decide⟩

/-- Claim C6, amended: the header tables are fixed constants and a GET with
the fault flag unset leaves the stored payload unchanged, but a GET with the
fault flag set corrupts the stored shared payload in place, setting its byte
0 to zero; the corruption is applied to the catalog payload itself, not to a
per-response copy. -/
theorem stored_payload_after_request (r : Request) (d : List Nat) :
    (do_GET r false d).2 = d ∧ (do_GET r true d).2 = d.set 0 0 :=
  ⟨rfl, rfl⟩

/-- Claim C7, counterexample: a short write is not surfaced — with the
transport reporting 0 of the 520 requested bytes transmitted for the first
write, the handler still issues the second write and reports no error. -/
theorem short_write_not_surfaced :
    ((do_GET_observed sampleRequest false data [0, 0]).1.headD []).length = 520
    ∧ (do_GET_observed sampleRequest false data [0, 0]).1.length = 2
    ∧ (do_GET_observed sampleRequest false data [0, 0]).2 = none := by
  refine ⟨by decide, rfl, rfl⟩

/-- Claim C7, amended: the handler never inspects how many bytes a write call
transmitted: it issues the same two writes and surfaces no error whatever the
transport reports, so a short write is neither detected, surfaced, nor
retried by the handler. -/
theorem writes_independent_of_transport_results (r : Request) (d rs1 rs2 : List Nat) :
    (do_GET_observed r false d rs1).1 = (do_GET_observed r false d rs2).1
    ∧ (do_GET_observed r false d rs1).2 = none
    ∧ (do_GET_observed r false d rs1).1 = (do_GET r false d).1 :=
  ⟨rfl, rfl, rfl⟩

/-- Claim C8: any two GET requests served with the fault flag unset — on one
persistent connection or different ones, whatever their paths and headers —
produce identical response bytes, and the stored payload is unchanged, so the
server keeps no state across such requests. -/
theorem get_responses_identical (r1 r2 : Request) (d : List Nat) :
    (do_GET r1 false d).1 = (do_GET r2 false d).1 ∧ (do_GET r1 false d).2 = d :=
  ⟨rfl, rfl⟩

/-- Claim C10: the GET response is a deterministic constant — for every
request it consists of the same bytes, `getResponseBytes`, independent of the
request and of the wall clock (no time input reaches `do_GET`), and the wire
bytes carry the fixed capture-time `Date` header literal. -/
theorem get_response_deterministic_constant (r : Request) :
    (do_GET r false data).1.flatten = getResponseBytes
    ∧ (strBytes "Date: Thu, 23 Apr 2020 10:17:02 GMT" ++ crlf) <:+: getResponseBytes :=
  ⟨rfl, ⟨getResponseBytes.take 446, getResponseBytes.drop 483, by decide⟩⟩

end SC2450
